import Mathlib

/-!
# Geomagic Touch ROS driver: the control core of `omni_state.cpp`

A shallow embedding of `src/omni_common/src/omni_state.cpp`.

* C++ `double` values are read as exact rationals (`ℚ`); rounding is not modelled.
* The shared `OmniState` struct is a Lean structure; every function that mutates
  it through a pointer becomes a function returning the updated structure.
* Calls into the vendor device library that *command* the device are recorded
  in a list of `HDCall`s; calls that *read* from the device take their result
  from an `HDFrame` argument.
* Constants of the vendor header `HD/hdDefines.h` are not part of the repository;
  they are collected in the parameter structure `HDDefines`.
-/

namespace Omni

/-! ## Vectors and quaternions of the vendor utility library -/

/-- Vector of three doubles (`hduVector3Dd`); `v[0]`, `v[1]`, `v[2]` are `x`, `y`, `z`. -/
structure hduVector3Dd where
  x : ℚ
  y : ℚ
  z : ℚ
deriving DecidableEq

namespace hduVector3Dd

/-- Component access `v[i]`. -/
def get (v : hduVector3Dd) (i : Fin 3) : ℚ :=
  match i with
  | 0 => v.x
  | 1 => v.y
  | 2 => v.z

/-- Component store `v[i] = a`. -/
def set (v : hduVector3Dd) (i : Fin 3) (a : ℚ) : hduVector3Dd :=
  match i with
  | 0 => { v with x := a }
  | 1 => { v with y := a }
  | 2 => { v with z := a }

instance : Add hduVector3Dd :=
  ⟨fun a b => ⟨a.x + b.x, a.y + b.y, a.z + b.z⟩⟩

instance : Sub hduVector3Dd :=
  ⟨fun a b => ⟨a.x - b.x, a.y - b.y, a.z - b.z⟩⟩

/-- Scalar on the left: `k * v`. -/
instance : HMul ℚ hduVector3Dd hduVector3Dd :=
  ⟨fun k v => ⟨k * v.x, k * v.y, k * v.z⟩⟩

/-- Scalar on the right: `v * k`. -/
instance : HMul hduVector3Dd ℚ hduVector3Dd :=
  ⟨fun v k => ⟨v.x * k, v.y * k, v.z * k⟩⟩

/-- Division by a scalar: `v / k`. -/
instance : HDiv hduVector3Dd ℚ hduVector3Dd :=
  ⟨fun v k => ⟨v.x / k, v.y / k, v.z / k⟩⟩

end hduVector3Dd

/-- Quaternion (`hduQuaternion`) with scalar part `s()` and vector part `v()`. -/
structure hduQuaternion where
  s : ℚ
  v : hduVector3Dd
deriving DecidableEq

/-- Array access `q[i]` of a quaternion: index 0 is the scalar part. -/
def hduQuaternion.get (q : hduQuaternion) (i : Fin 4) : ℚ :=
  match i with
  | 0 => q.s
  | 1 => q.v.x
  | 2 => q.v.y
  | 3 => q.v.z

/-! ## The shared state -/

/-- The struct `OmniState` (source lines 31-52). -/
structure OmniState where
  position : hduVector3Dd
  velocity : hduVector3Dd
  inp_vel1 : hduVector3Dd
  inp_vel2 : hduVector3Dd
  inp_vel3 : hduVector3Dd
  out_vel1 : hduVector3Dd
  out_vel2 : hduVector3Dd
  out_vel3 : hduVector3Dd
  pos_hist1 : hduVector3Dd
  pos_hist2 : hduVector3Dd
  rot : hduQuaternion
  joints : hduVector3Dd
  force : hduVector3Dd
  thetas : Fin 7 → ℚ
  buttons : Fin 2 → Int
  buttons_prev : Fin 2 → Int
  lock : Bool
  close_gripper : Bool
  lock_pos : hduVector3Dd
  units_ratio : ℚ

/-! ## The device library -/

/-- Constants of `HD/hdDefines.h` used by the driver. -/
structure HDDefines where
  HD_CALIBRATION_OK : Int
  HD_CALIBRATION_NEEDS_UPDATE : Int
  HD_CALIBRATION_NEEDS_MANUAL_INPUT : Int
  HD_CALIBRATION_AUTO : Nat
  HD_CALIBRATION_ENCODER_RESET : Nat
  HD_CALIBRATION_INKWELL : Nat
  HD_DEVICE_BUTTON_1 : Nat
  HD_DEVICE_BUTTON_2 : Nat

/-- The values of these constants in the vendor header (status codes `0x5000` to
`0x5002`, one bit per calibration style and per button); used for the concrete runs. -/
def openHaptics : HDDefines where
  HD_CALIBRATION_OK := 0x5000
  HD_CALIBRATION_NEEDS_UPDATE := 0x5001
  HD_CALIBRATION_NEEDS_MANUAL_INPUT := 0x5002
  HD_CALIBRATION_AUTO := 1
  HD_CALIBRATION_ENCODER_RESET := 2
  HD_CALIBRATION_INKWELL := 4
  HD_DEVICE_BUTTON_1 := 1
  HD_DEVICE_BUTTON_2 := 2

/-- What `hdGetError()` returned, as far as the driver inspects it. -/
structure HDErrorInfo where
  /-- Value of `HD_DEVICE_ERROR(error)`. -/
  device_error : Bool
  /-- Value of `hduIsSchedulerError(&error)`. -/
  scheduler_error : Bool
deriving DecidableEq

/-- Everything the device hands to one run of the scheduler callback. -/
structure HDFrame where
  /-- Result of `hdCheckCalibration()`. -/
  calibration : Int
  /-- Result of `hdGetDoublev(HD_CURRENT_TRANSFORM, ...)`, indexed `transform[i][j]`. -/
  transform : Fin 4 → Fin 4 → ℚ
  /-- Result of `hdGetDoublev(HD_CURRENT_JOINT_ANGLES, ...)`. -/
  joints : hduVector3Dd
  /-- Result of `hdGetIntegerv(HD_CURRENT_BUTTONS, ...)`. -/
  nButtons : Nat
  /-- Result of `hdGetError()`. -/
  error : HDErrorInfo

/-- Commands the driver issues to the device library, in program order. -/
inductive HDCall where
  | hdUpdateCalibration (style : Nat)
  | hdBeginFrame
  | hdSetForce (feedback : hduVector3Dd)
  | hdEndFrame
  | hduPrintError
deriving DecidableEq

/-- Return value of a scheduler callback. -/
inductive HDCallbackCode where
  | HD_CALLBACK_DONE
  | HD_CALLBACK_CONTINUE
deriving DecidableEq

/-- Result of one run of `omni_state_callback`. -/
structure TickResult where
  state : OmniState
  calls : List HDCall
  code : HDCallbackCode

/-! ## The scheduler callback -/

/-- Lines 204-225 of `omni_state_callback`: joint angles, position and orientation.

`orient` stands for the orientation pipeline of lines 213-224 (rotation matrix,
quaternion, Euler angles through the trigonometric routines of the bullet
library, quaternion again), which lies outside rational arithmetic. -/
def omni_state_callback.pose (orient : (Fin 4 → Fin 4 → ℚ) → hduQuaternion)
    (omni_state : OmniState) (transform : Fin 4 → Fin 4 → ℚ) (joints : hduVector3Dd) :
    OmniState :=
  let s := { omni_state with joints := joints }
  -- Position
  let s := { s with position := ⟨transform 3 0, -transform 3 2, transform 3 1⟩ }
  let s := { s with position := s.position / s.units_ratio }
  -- Orientation (quaternion)
  { s with rot := orient transform }

/-- Lines 226-241 of `omni_state_callback`: velocity estimation and history shift. -/
def omni_state_callback.velocity_estimation (omni_state : OmniState) : OmniState :=
  let s := omni_state
  let vel_buff : hduVector3Dd :=
    (s.position * (3 : ℚ) - (4 : ℚ) * s.pos_hist1 + s.pos_hist2) / (0.002 : ℚ)
  let s := { s with velocity :=
    ((0.2196 : ℚ) * (vel_buff + s.inp_vel3) + (0.6588 : ℚ) * (s.inp_vel1 + s.inp_vel2))
        / (1000.0 : ℚ)
      - ((-2.7488 : ℚ) * s.out_vel1 + (2.5282 : ℚ) * s.out_vel2
          - (0.7776 : ℚ) * s.out_vel3) }
  let s := { s with pos_hist2 := s.pos_hist1 }
  let s := { s with pos_hist1 := s.position }
  let s := { s with inp_vel3 := s.inp_vel2 }
  let s := { s with inp_vel2 := s.inp_vel1 }
  let s := { s with inp_vel1 := vel_buff }
  let s := { s with out_vel3 := s.out_vel2 }
  let s := { s with out_vel2 := s.out_vel1 }
  { s with out_vel1 := s.velocity }

/-- Lines 243-247 of `omni_state_callback`: the lock-mode force. -/
def omni_state_callback.set_forces (omni_state : OmniState) : OmniState :=
  if omni_state.lock = true then
    { omni_state with force :=
        ((0.04 : ℚ) * omni_state.units_ratio) * (omni_state.lock_pos - omni_state.position)
          - (0.001 : ℚ) * omni_state.velocity }
  else omni_state

/-- Lines 248-252 of `omni_state_callback`: the force vector handed to the device. -/
def omni_state_callback.feedback (omni_state : OmniState) : hduVector3Dd :=
  ⟨omni_state.force.get 0, omni_state.force.get 2, -omni_state.force.get 1⟩

/-- Lines 255-259 of `omni_state_callback`: the two button channels. -/
def omni_state_callback.get_buttons (d : HDDefines) (omni_state : OmniState) (nButtons : Nat) :
    OmniState :=
  let s := { omni_state with buttons :=
    (Function.update omni_state.buttons 0
      (if nButtons &&& d.HD_DEVICE_BUTTON_1 ≠ 0 then 1 else 0)) }
  { s with buttons :=
    (Function.update s.buttons 1 (if nButtons &&& d.HD_DEVICE_BUTTON_2 ≠ 0 then 1 else 0)) }

/-- Lines 270-274 of `omni_state_callback`: the joint-angle array `thetas`
(the narrowing to `float` is not modelled). -/
def omni_state_callback.set_thetas (omni_state : OmniState) : OmniState :=
  let t : Fin 7 → ℚ := ![0, omni_state.joints.get 0, omni_state.joints.get 1,
    omni_state.joints.get 2 - omni_state.joints.get 1, omni_state.rot.get 0,
    omni_state.rot.get 1, omni_state.rot.get 2]
  { omni_state with thetas := t }

/-- The callback `omni_state_callback` (source lines 196-276), the stages above in
program order. `calibrationStyle` is the global of that name. -/
def omni_state_callback (d : HDDefines) (orient : (Fin 4 → Fin 4 → ℚ) → hduQuaternion)
    (calibrationStyle : Nat) (omni_state : OmniState) (f : HDFrame) : TickResult :=
  let c0 : List HDCall :=
    if f.calibration = d.HD_CALIBRATION_NEEDS_UPDATE then
      [HDCall.hdUpdateCalibration calibrationStyle]
    else []
  let c1 := c0 ++ [HDCall.hdBeginFrame]
  let s1 := omni_state_callback.pose orient omni_state f.transform f.joints
  let s2 := omni_state_callback.velocity_estimation s1
  let s3 := omni_state_callback.set_forces s2
  let c2 := c1 ++ [HDCall.hdSetForce (omni_state_callback.feedback s3)]
  let s4 := omni_state_callback.get_buttons d s3 f.nButtons
  let c3 := c2 ++ [HDCall.hdEndFrame]
  if f.error.device_error = true then
    if f.error.scheduler_error = true then
      ⟨s4, c3 ++ [HDCall.hduPrintError], HDCallbackCode.HD_CALLBACK_DONE⟩
    else
      ⟨omni_state_callback.set_thetas s4, c3 ++ [HDCall.hduPrintError],
        HDCallbackCode.HD_CALLBACK_CONTINUE⟩
  else
    ⟨omni_state_callback.set_thetas s4, c3, HDCallbackCode.HD_CALLBACK_CONTINUE⟩

/-! ## Messages -/

/-- The message type `geometry_msgs/Vector3` (also used for `geometry_msgs/Point`). -/
structure Vector3 where
  x : ℚ
  y : ℚ
  z : ℚ
deriving DecidableEq

/-- The message type `geometry_msgs/Quaternion`. -/
structure QuaternionMsg where
  x : ℚ
  y : ℚ
  z : ℚ
  w : ℚ
deriving DecidableEq

/-- The message type `geometry_msgs/Pose`. -/
structure Pose where
  position : Vector3
  orientation : QuaternionMsg
deriving DecidableEq

/-- The message type `std_msgs/Header`, without the sequence number. -/
structure Header where
  stamp : Nat
  frame_id : String
deriving DecidableEq

/-- The message type `omni_msgs/OmniFeedback`. -/
structure OmniFeedback where
  force : Vector3
  position : Vector3
deriving DecidableEq

/-- The fields of `omni_msgs/OmniState` that the driver fills in. -/
structure OmniStateMsg where
  header : Header
  locked : Bool
  close_gripper : Bool
  pose : Pose
  velocity : Vector3
deriving DecidableEq

/-- The message type `geometry_msgs/PoseStamped`. -/
structure PoseStamped where
  header : Header
  pose : Pose
deriving DecidableEq

/-- The message type `omni_msgs/OmniButtonEvent`. -/
structure OmniButtonEvent where
  grey_button : Int
  white_button : Int
deriving DecidableEq

/-- Lines written to the ROS log by `init`. -/
inductive RosLog where
  /-- The warning `Unknown units [%s] unsing [mm]`. -/
  | warn_unknown_units (units : String)
  /-- The line `PHaNTOM position given in [%s], ratio [%.1f]`. -/
  | info_units (units : String) (ratio : ℚ)
deriving DecidableEq

/-! ## The class `PhantomROS` -/

/-- The data members of `PhantomROS`; `state` is the pointed-to `OmniState`, and the
publishers and the subscriber are represented by the names of their topics. -/
structure PhantomROS where
  omni_name : String
  ref_frame : String
  units : String
  button_topic : String
  state_topic_name : String
  force_feedback_topic : String
  pose_topic_name : String
  state : OmniState

/-- The call `ros::param::param(name, var, default)`: the value on the parameter
server when there is one, the default otherwise. -/
def ros_param (value : Option String) (dflt : String) : String :=
  match value with
  | some v => v
  | none => dflt

/-- Lines 96-112 of `PhantomROS::init`: the fields set before the units are looked at. -/
def PhantomROS.init.reset (s : OmniState) : OmniState :=
  let s := { s with buttons := (Function.update s.buttons 0 0) }
  let s := { s with buttons := (Function.update s.buttons 1 0) }
  let s := { s with buttons_prev := (Function.update s.buttons_prev 0 0) }
  let s := { s with buttons_prev := (Function.update s.buttons_prev 1 0) }
  let zeros : hduVector3Dd := ⟨0, 0, 0⟩
  { s with
    velocity := zeros
    inp_vel1 := zeros
    inp_vel2 := zeros
    inp_vel3 := zeros
    out_vel1 := zeros
    out_vel2 := zeros
    out_vel3 := zeros
    pos_hist1 := zeros
    pos_hist2 := zeros
    lock := false
    close_gripper := false
    lock_pos := zeros }

/-- The method `PhantomROS::init` (source lines 66-128). The three arguments after `s`
are the values of `~omni_name`, `~reference_frame` and `~units` on the parameter
server. Returns the object and the log lines written. -/
def PhantomROS.init (s : OmniState) (p_omni_name p_reference_frame p_units : Option String) :
    PhantomROS × List RosLog :=
  let omni_name := ros_param p_omni_name "phantom"
  let ref_frame := ros_param p_reference_frame "/map"
  let units := ros_param p_units "mm"
  let state := PhantomROS.init.reset s
  let this : PhantomROS :=
    { omni_name := omni_name
      ref_frame := ref_frame
      units := units
      button_topic := omni_name ++ "/button"
      state_topic_name := omni_name ++ "/state"
      force_feedback_topic := omni_name ++ "/force_feedback"
      pose_topic_name := omni_name ++ "/pose"
      state := state }
  if units = "mm" then
    let this := { this with state := { state with units_ratio := 1.0 } }
    (this, [RosLog.info_units this.units this.state.units_ratio])
  else if units = "cm" then
    let this := { this with state := { state with units_ratio := 10.0 } }
    (this, [RosLog.info_units this.units this.state.units_ratio])
  else if units = "dm" then
    let this := { this with state := { state with units_ratio := 100.0 } }
    (this, [RosLog.info_units this.units this.state.units_ratio])
  else if units = "m" then
    let this := { this with state := { state with units_ratio := 1000.0 } }
    (this, [RosLog.info_units this.units this.state.units_ratio])
  else
    let this := { this with state := { state with units_ratio := 1.0 }, units := "mm" }
    (this, [RosLog.warn_unknown_units units,
            RosLog.info_units this.units this.state.units_ratio])

/-- The subscriber callback `PhantomROS::force_callback` (source lines 133-145),
on the pointed-to state. -/
def PhantomROS.force_callback (state : OmniState) (omnifeed : OmniFeedback) : OmniState :=
  let s := state
  let s := { s with force := s.force.set 0 (omnifeed.force.x - (0.001 : ℚ) * s.velocity.get 0) }
  let s := { s with force := s.force.set 1 (omnifeed.force.y - (0.001 : ℚ) * s.velocity.get 1) }
  let s := { s with force := s.force.set 2 (omnifeed.force.z - (0.001 : ℚ) * s.velocity.get 2) }
  let s := { s with lock_pos := s.lock_pos.set 0 omnifeed.position.x }
  let s := { s with lock_pos := s.lock_pos.set 1 omnifeed.position.y }
  { s with lock_pos := s.lock_pos.set 2 omnifeed.position.z }

/-- Lines 177-192 of `PhantomROS::publish_omni_state`: the button step. Returns the
state and the button event published, if any. -/
def PhantomROS.publish_omni_state.buttons (state : OmniState) :
    OmniState × Option OmniButtonEvent :=
  if state.buttons 0 ≠ state.buttons_prev 0 ∨ state.buttons 1 ≠ state.buttons_prev 1 then
    let s :=
      if state.buttons 0 = 1 then { state with close_gripper := !state.close_gripper }
      else state
    let s :=
      if s.buttons 1 = 1 then { s with lock := !s.lock }
      else s
    let button_event : OmniButtonEvent :=
      { grey_button := s.buttons 0, white_button := s.buttons 1 }
    let s := { s with buttons_prev := (Function.update s.buttons_prev 0 (s.buttons 0)) }
    let s := { s with buttons_prev := (Function.update s.buttons_prev 1 (s.buttons 1)) }
    (s, some button_event)
  else (state, none)

/-- Everything one run of `publish_omni_state` publishes. -/
structure Published where
  state_msg : OmniStateMsg
  pose_msg : PoseStamped
  button_event : Option OmniButtonEvent
deriving DecidableEq

/-- The method `PhantomROS::publish_omni_state` (source lines 147-193); `now` is the
value of `ros::Time::now()`. -/
def PhantomROS.publish_omni_state (this : PhantomROS) (now : Nat) : PhantomROS × Published :=
  let state := this.state
  let state_msg : OmniStateMsg :=
    { header := { stamp := now, frame_id := "" }
      locked := state.lock
      close_gripper := state.close_gripper
      pose :=
        { position := ⟨state.position.get 0, state.position.get 1, state.position.get 2⟩
          orientation := ⟨state.rot.v.get 0, state.rot.v.get 1, state.rot.v.get 2, state.rot.s⟩ }
      velocity := ⟨state.velocity.get 0, state.velocity.get 1, state.velocity.get 2⟩ }
  let pose_msg : PoseStamped :=
    { header := { state_msg.header with frame_id := this.ref_frame }
      pose := state_msg.pose }
  let r := PhantomROS.publish_omni_state.buttons state
  ({ this with state := r.1 },
   { state_msg := state_msg, pose_msg := pose_msg, button_event := r.2 })

/-! ## Calibration style -/

/-- Lines 285-297 of `HHD_Auto_Calibration`: the new value of the global
`calibrationStyle`, given the mask returned by `hdGetIntegerv(HD_CALIBRATION_STYLE, ...)`
and the old value of the global. The loops of lines 298-319 that follow read the
global and never assign it. -/
def HHD_Auto_Calibration.style (d : HDDefines) (supportedCalibrationStyles : Nat)
    (calibrationStyle : Nat) : Nat :=
  let calibrationStyle :=
    if supportedCalibrationStyles &&& d.HD_CALIBRATION_ENCODER_RESET ≠ 0 then
      d.HD_CALIBRATION_ENCODER_RESET
    else calibrationStyle
  let calibrationStyle :=
    if supportedCalibrationStyles &&& d.HD_CALIBRATION_INKWELL ≠ 0 then
      d.HD_CALIBRATION_INKWELL
    else calibrationStyle
  let calibrationStyle :=
    if supportedCalibrationStyles &&& d.HD_CALIBRATION_AUTO ≠ 0 then
      d.HD_CALIBRATION_AUTO
    else calibrationStyle
  calibrationStyle

/-! ## Runs of the callback -/

/-- The state `omni_state_callback` has built when it reaches the error check of
line 264, before `thetas` is written. -/
def omni_state_callback.core (d : HDDefines) (orient : (Fin 4 → Fin 4 → ℚ) → hduQuaternion)
    (omni_state : OmniState) (f : HDFrame) : OmniState :=
  omni_state_callback.get_buttons d
    (omni_state_callback.set_forces
      (omni_state_callback.velocity_estimation
        (omni_state_callback.pose orient omni_state f.transform f.joints))) f.nButtons

/-- The state after `n` successive runs of `omni_state_callback`, run `k` (counted
from 0) being fed the frame `fs k`. -/
def ticks (d : HDDefines) (orient : (Fin 4 → Fin 4 → ℚ) → hduQuaternion) (style : Nat)
    (s : OmniState) (fs : ℕ → HDFrame) : ℕ → OmniState
  | 0 => s
  | n + 1 => (omni_state_callback d orient style (ticks d orient style s fs n) (fs n)).state

/-- One run to completion of one of the three entry points of the node: the scheduler
callback, the publisher loop body, the subscriber callback. -/
inductive Event where
  | tick (f : HDFrame)
  | publish (now : Nat)
  | message (omnifeed : OmniFeedback)

/-- The effect of one event on the driver object. -/
def step (d : HDDefines) (orient : (Fin 4 → Fin 4 → ℚ) → hduQuaternion) (style : Nat)
    (p : PhantomROS) : Event → PhantomROS
  | Event.tick f => { p with state := (omni_state_callback d orient style p.state f).state }
  | Event.publish now => (PhantomROS.publish_omni_state p now).1
  | Event.message omnifeed =>
      { p with state := PhantomROS.force_callback p.state omnifeed }

/-- The driver object after a sequence of events, the first of the list first. -/
def run (d : HDDefines) (orient : (Fin 4 → Fin 4 → ℚ) → hduQuaternion) (style : Nat)
    (p : PhantomROS) : List Event → PhantomROS
  | [] => p
  | e :: es => run d orient style (step d orient style p e) es

/-- No event of the sequence is a message, and every callback run in it starts with
`lock == false`. -/
def quiet (d : HDDefines) (orient : (Fin 4 → Fin 4 → ℚ) → hduQuaternion) (style : Nat)
    (p : PhantomROS) : List Event → Bool
  | [] => true
  | Event.tick f :: es =>
      !p.state.lock && quiet d orient style (step d orient style p (Event.tick f)) es
  | Event.publish now :: es =>
      quiet d orient style (step d orient style p (Event.publish now)) es
  | Event.message _ :: _ => false

/-! ## Quantities used in the analysis of the velocity filter -/

/-- A quadratic form that decreases along the homogeneous part of the filter
recurrence `x ↦ 2.7488 * x1 - 2.5282 * x2 + 0.7776 * x3`. -/
def filterEnergy (x1 x2 x3 : ℚ) : ℚ :=
  1128029 * x1 ^ 2 - 2 * 2005610 * x1 * x2 + 2 * 896383 * x1 * x3
    + 3574379 * x2 ^ 2 - 2 * 1600630 * x2 * x3 + 717986 * x3 ^ 2

/-- The taps of axis `i` are those of a ramp of slope `D` per run that has lasted long
enough: the position history is on the ramp and the raw differences all equal `1000 * D`. -/
def SteadyRamp (i : Fin 3) (D : ℚ) (s : OmniState) : Prop :=
  s.pos_hist1.get i = s.position.get i ∧ s.pos_hist2.get i = s.position.get i - D
    ∧ s.inp_vel1.get i = 1000 * D ∧ s.inp_vel2.get i = 1000 * D
    ∧ s.inp_vel3.get i = 1000 * D ∧ s.out_vel1.get i = s.velocity.get i

instance (i : Fin 3) (D : ℚ) (s : OmniState) : Decidable (SteadyRamp i D s) := by
  unfold SteadyRamp
  infer_instance

/-- The energy of the distance of the output taps of axis `i` from `976 * D`. -/
def rampEnergy (i : Fin 3) (D : ℚ) (s : OmniState) : ℚ :=
  filterEnergy (s.out_vel1.get i - 976 * D) (s.out_vel2.get i - 976 * D)
    (s.out_vel3.get i - 976 * D)

/-! ## Concrete data for the examples -/

/-- An orientation pipeline that always yields the identity quaternion. -/
def orient0 : (Fin 4 → Fin 4 → ℚ) → hduQuaternion :=
  fun _ => ⟨1, ⟨0, 0, 0⟩⟩

/-- A zero-filled `OmniState`, as storage for `init` to work on. -/
def OmniState.blank : OmniState where
  position := ⟨0, 0, 0⟩
  velocity := ⟨0, 0, 0⟩
  inp_vel1 := ⟨0, 0, 0⟩
  inp_vel2 := ⟨0, 0, 0⟩
  inp_vel3 := ⟨0, 0, 0⟩
  out_vel1 := ⟨0, 0, 0⟩
  out_vel2 := ⟨0, 0, 0⟩
  out_vel3 := ⟨0, 0, 0⟩
  pos_hist1 := ⟨0, 0, 0⟩
  pos_hist2 := ⟨0, 0, 0⟩
  rot := ⟨0, ⟨0, 0, 0⟩⟩
  joints := ⟨0, 0, 0⟩
  force := ⟨0, 0, 0⟩
  thetas := fun _ => 0
  buttons := fun _ => 0
  buttons_prev := fun _ => 0
  lock := false
  close_gripper := false
  lock_pos := ⟨0, 0, 0⟩
  units_ratio := 0

/-- The state `init` produces from zero-filled storage with no parameter set. -/
def initial : OmniState :=
  (PhantomROS.init OmniState.blank none none none).1.state

/-- A frame of a calibrated, error-free device whose transform is the translation by
`(tx, ty, tz)`, with button mask `nButtons`. -/
def frameAt (tx ty tz : ℚ) (nButtons : Nat) : HDFrame where
  calibration := openHaptics.HD_CALIBRATION_OK
  transform := fun i j =>
    if i = 3 then (if j = 0 then tx else if j = 1 then ty else if j = 2 then tz else 1)
    else if i = j then 1 else 0
  joints := ⟨0, 0, 0⟩
  nButtons := nButtons
  error := ⟨false, false⟩

/-- The frames of a stylus that moves along the device x axis by one unit per run. -/
def rampFrames (n : ℕ) : HDFrame :=
  frameAt n 0 0 0

/-- The initial state with lock mode on and the anchor at `(10, 0, 0)`. -/
def lockedAtTen : OmniState :=
  { initial with lock := true, lock_pos := ⟨10, 0, 0⟩ }

/-- A frame like `frameAt 1 2 3 0`, but of a device whose calibration check reports
that an update is needed. -/
def frameNeedsUpdate : HDFrame :=
  { frameAt 1 2 3 0 with calibration := openHaptics.HD_CALIBRATION_NEEDS_UPDATE }

/-- A feedback message commanding the force `(1, 0, 0)`. -/
def pushX : OmniFeedback where
  force := ⟨1, 0, 0⟩
  position := ⟨0, 0, 0⟩

/-- The driver object right after `init` with no parameter set. -/
def initialROS : PhantomROS :=
  (PhantomROS.init OmniState.blank none none none).1

/-- The grey button (channel 0) goes down: one run of the callback with button mask 1,
then one run of `publish_omni_state`. -/
def greyDown : PhantomROS :=
  (PhantomROS.publish_omni_state
    { initialROS with state :=
        (omni_state_callback openHaptics orient0 0 initialROS.state (frameAt 0 0 0 1)).state }
    0).1

/-- With the grey button still held the white button (channel 1) goes down: one run of
the callback with button mask 3 after `greyDown`. -/
def greyHeldWhiteDown : PhantomROS :=
  { greyDown with state :=
      (omni_state_callback openHaptics orient0 0 greyDown.state (frameAt 0 0 0 3)).state }

/-- The white button (channel 1) goes down while lock mode is on with the anchor at
`(10, 0, 0)`: one run of the callback from `lockedAtTen` with button mask 2. -/
def lockedWhiteDown : PhantomROS :=
  { initialROS with state :=
      (omni_state_callback openHaptics orient0 0 lockedAtTen (frameAt 0 0 0 2)).state }

/-- The message `pushX` has just been handled in the initial state. -/
def pushed : PhantomROS :=
  { initialROS with state := PhantomROS.force_callback initial pushX }

/-! ## Component-wise reading of the vector operations -/

namespace hduVector3Dd

theorem get_add (a b : hduVector3Dd) (i : Fin 3) : (a + b).get i = a.get i + b.get i := by
  fin_cases i <;> rfl

theorem get_sub (a b : hduVector3Dd) (i : Fin 3) : (a - b).get i = a.get i - b.get i := by
  fin_cases i <;> rfl

theorem get_smul (k : ℚ) (a : hduVector3Dd) (i : Fin 3) : (k * a).get i = k * a.get i := by
  fin_cases i <;> rfl

theorem get_mul_scalar (a : hduVector3Dd) (k : ℚ) (i : Fin 3) : (a * k).get i = a.get i * k := by
  fin_cases i <;> rfl

theorem get_div (a : hduVector3Dd) (k : ℚ) (i : Fin 3) : (a / k).get i = a.get i / k := by
  fin_cases i <;> rfl

theorem ext_get {a b : hduVector3Dd} (h : ∀ i, a.get i = b.get i) : a = b := by
  cases a; cases b
  have h0 := h 0
  have h1 := h 1
  have h2 := h 2
  simp only [get] at h0 h1 h2
  simp [h0, h1, h2]

end hduVector3Dd

/-! ## Auxiliary facts about the callback -/

section Aux

variable (d : HDDefines) (orient : (Fin 4 → Fin 4 → ℚ) → hduQuaternion) (style : Nat)
variable (s : OmniState) (f : HDFrame)

theorem omni_state_callback_state :
    (omni_state_callback d orient style s f).state =
      if f.error.device_error = true ∧ f.error.scheduler_error = true then
        omni_state_callback.core d orient s f
      else omni_state_callback.set_thetas (omni_state_callback.core d orient s f) := by
  unfold omni_state_callback omni_state_callback.core
  by_cases h1 : f.error.device_error = true <;> by_cases h2 : f.error.scheduler_error = true <;>
    simp [h1, h2]

theorem omni_state_callback_position :
    (omni_state_callback d orient style s f).state.position =
      (⟨f.transform 3 0, -f.transform 3 2, f.transform 3 1⟩ : hduVector3Dd) / s.units_ratio := by
  rw [omni_state_callback_state]
  split_ifs <;>
    simp [omni_state_callback.core, omni_state_callback.get_buttons,
      omni_state_callback.set_forces, omni_state_callback.velocity_estimation,
      omni_state_callback.pose, omni_state_callback.set_thetas, apply_ite]

theorem omni_state_callback_velocity :
    (omni_state_callback d orient style s f).state.velocity =
      (omni_state_callback.velocity_estimation
        (omni_state_callback.pose orient s f.transform f.joints)).velocity := by
  rw [omni_state_callback_state]
  split_ifs <;>
    simp [omni_state_callback.core, omni_state_callback.get_buttons,
      omni_state_callback.set_forces, omni_state_callback.set_thetas, apply_ite]

theorem omni_state_callback_force :
    (omni_state_callback d orient style s f).state.force =
      if s.lock = true then
        ((0.04 : ℚ) * s.units_ratio) *
            (s.lock_pos - (omni_state_callback d orient style s f).state.position)
          - (0.001 : ℚ) * (omni_state_callback d orient style s f).state.velocity
      else s.force := by
  rw [omni_state_callback_velocity, omni_state_callback_position, omni_state_callback_state]
  split_ifs <;>
    simp_all [omni_state_callback.core, omni_state_callback.get_buttons,
      omni_state_callback.set_forces, omni_state_callback.velocity_estimation,
      omni_state_callback.pose, omni_state_callback.set_thetas]

theorem omni_state_callback_lock :
    (omni_state_callback d orient style s f).state.lock = s.lock := by
  rw [omni_state_callback_state]
  split_ifs <;>
    simp [omni_state_callback.core, omni_state_callback.get_buttons,
      omni_state_callback.set_forces, omni_state_callback.velocity_estimation,
      omni_state_callback.pose, omni_state_callback.set_thetas, apply_ite]

theorem omni_state_callback_units_ratio :
    (omni_state_callback d orient style s f).state.units_ratio = s.units_ratio := by
  rw [omni_state_callback_state]
  split_ifs <;>
    simp [omni_state_callback.core, omni_state_callback.get_buttons,
      omni_state_callback.set_forces, omni_state_callback.velocity_estimation,
      omni_state_callback.pose, omni_state_callback.set_thetas, apply_ite]

theorem omni_state_callback_calls :
    (omni_state_callback d orient style s f).calls =
      (if f.calibration = d.HD_CALIBRATION_NEEDS_UPDATE then
          [HDCall.hdUpdateCalibration style] else [])
        ++ [HDCall.hdBeginFrame,
            HDCall.hdSetForce ⟨(omni_state_callback d orient style s f).state.force.get 0,
              (omni_state_callback d orient style s f).state.force.get 2,
              -(omni_state_callback d orient style s f).state.force.get 1⟩,
            HDCall.hdEndFrame]
        ++ (if f.error.device_error = true then [HDCall.hduPrintError] else []) := by
  have hF : (omni_state_callback d orient style s f).state.force =
      (omni_state_callback.set_forces (omni_state_callback.velocity_estimation
        (omni_state_callback.pose orient s f.transform f.joints))).force := by
    rw [omni_state_callback_state]
    split_ifs <;>
      simp [omni_state_callback.core, omni_state_callback.get_buttons,
        omni_state_callback.set_thetas]
  rw [hF]
  unfold omni_state_callback
  by_cases h1 : f.error.device_error = true <;> by_cases h2 : f.error.scheduler_error = true <;>
    simp [h1, h2, omni_state_callback.feedback]

/-- The per-axis effect of one run of the callback on the filter taps. -/
theorem omni_state_callback_axis (i : Fin 3) :
    (omni_state_callback d orient style s f).state.velocity.get i =
        (0.2196 * ((3 * (omni_state_callback d orient style s f).state.position.get i
              - 4 * s.pos_hist1.get i + s.pos_hist2.get i) / 0.002 + s.inp_vel3.get i)
            + 0.6588 * (s.inp_vel1.get i + s.inp_vel2.get i)) / 1000
          - (-2.7488 * s.out_vel1.get i + 2.5282 * s.out_vel2.get i
              - 0.7776 * s.out_vel3.get i)
      ∧ (omni_state_callback d orient style s f).state.pos_hist2.get i = s.pos_hist1.get i
      ∧ (omni_state_callback d orient style s f).state.pos_hist1.get i =
          (omni_state_callback d orient style s f).state.position.get i
      ∧ (omni_state_callback d orient style s f).state.inp_vel3.get i = s.inp_vel2.get i
      ∧ (omni_state_callback d orient style s f).state.inp_vel2.get i = s.inp_vel1.get i
      ∧ (omni_state_callback d orient style s f).state.inp_vel1.get i =
          (3 * (omni_state_callback d orient style s f).state.position.get i
              - 4 * s.pos_hist1.get i + s.pos_hist2.get i) / 0.002
      ∧ (omni_state_callback d orient style s f).state.out_vel3.get i = s.out_vel2.get i
      ∧ (omni_state_callback d orient style s f).state.out_vel2.get i = s.out_vel1.get i
      ∧ (omni_state_callback d orient style s f).state.out_vel1.get i =
          (omni_state_callback d orient style s f).state.velocity.get i := by
  rw [omni_state_callback_state]
  split_ifs <;>
    simp [omni_state_callback.core, omni_state_callback.get_buttons,
      omni_state_callback.set_forces, omni_state_callback.velocity_estimation,
      omni_state_callback.pose, omni_state_callback.set_thetas, apply_ite,
      hduVector3Dd.get_add, hduVector3Dd.get_sub, hduVector3Dd.get_smul,
      hduVector3Dd.get_mul_scalar, hduVector3Dd.get_div] <;>
    ring_nf <;> simp

end Aux

/-! ## Runs of the callback -/

section Runs

variable (d : HDDefines) (orient : (Fin 4 → Fin 4 → ℚ) → hduQuaternion) (style : Nat)
variable (s : OmniState) (fs : ℕ → HDFrame)

theorem ticks_succ (n : ℕ) :
    ticks d orient style s fs (n + 1)
      = (omni_state_callback d orient style (ticks d orient style s fs n) (fs n)).state :=
  rfl

theorem ticks_units_ratio (n : ℕ) :
    (ticks d orient style s fs n).units_ratio = s.units_ratio := by
  induction n with
  | zero => rfl
  | succ n ih => rw [ticks_succ, omni_state_callback_units_ratio, ih]

theorem publish_omni_state_force (p : PhantomROS) (now : Nat) :
    (PhantomROS.publish_omni_state p now).1.state.force = p.state.force := by
  simp only [PhantomROS.publish_omni_state, PhantomROS.publish_omni_state.buttons]
  split_ifs <;> rfl

theorem run_quiet_force (p : PhantomROS) (es : List Event)
    (hq : quiet d orient style p es = true) :
    (run d orient style p es).state.force = p.state.force := by
  induction es generalizing p with
  | nil => rfl
  | cons e es ih =>
    cases e with
    | tick f =>
      simp only [quiet, Bool.and_eq_true, Bool.not_eq_true'] at hq
      rw [run, ih _ hq.2]
      simp only [step]
      rw [omni_state_callback_force, hq.1]
      simp
    | publish now =>
      simp only [quiet] at hq
      rw [run, ih _ hq]
      simp only [step]
      exact publish_omni_state_force p now
    | message m =>
      simp [quiet] at hq

end Runs

/-! ## The concrete data -/

theorem initial_units_ratio : initial.units_ratio = 1 := by
  simp [initial, PhantomROS.init, ros_param]
  norm_num

theorem initial_lock : initial.lock = false := by
  simp [initial, PhantomROS.init, PhantomROS.init.reset, ros_param]

theorem lockedWhiteDown_unlocks :
    (run openHaptics orient0 0 lockedWhiteDown [Event.publish 0]).state.lock = false := by
  simp [run, step, lockedWhiteDown, lockedAtTen, initialROS, initial,
    PhantomROS.publish_omni_state, PhantomROS.publish_omni_state.buttons,
    omni_state_callback_state, omni_state_callback.core, omni_state_callback.get_buttons,
    omni_state_callback.set_forces, omni_state_callback.velocity_estimation,
    omni_state_callback.pose, omni_state_callback.set_thetas, frameAt, openHaptics,
    PhantomROS.init, PhantomROS.init.reset, ros_param, OmniState.blank]

theorem pushed_lock : pushed.state.lock = false := by
  simp [pushed, PhantomROS.force_callback, initial_lock]

theorem pushed_quiet :
    quiet openHaptics orient0 0 pushed [Event.tick (frameAt 1 0 0 0), Event.publish 0]
      = true := by
  simp [quiet, pushed_lock]

theorem pushed_stays_unlocked :
    (run openHaptics orient0 0 pushed
      [Event.tick (frameAt 1 0 0 0), Event.publish 0]).state.lock = false := by
  simp [run, step, pushed, initialROS, initial, PhantomROS.force_callback,
    PhantomROS.publish_omni_state, PhantomROS.publish_omni_state.buttons,
    omni_state_callback_state, omni_state_callback.core, omni_state_callback.get_buttons,
    omni_state_callback.set_forces, omni_state_callback.velocity_estimation,
    omni_state_callback.pose, omni_state_callback.set_thetas, frameAt, openHaptics,
    PhantomROS.init, PhantomROS.init.reset, ros_param, OmniState.blank]

theorem rampFrames_position (n : ℕ) :
    (ticks openHaptics orient0 0 initial rampFrames (n + 1)).position.get 0 = n := by
  rw [ticks_succ, omni_state_callback_position, ticks_units_ratio, initial_units_ratio,
    hduVector3Dd.get_div]
  simp [hduVector3Dd.get, rampFrames, frameAt]

theorem rampFrames_ramp (n : ℕ) :
    (ticks openHaptics orient0 0 initial rampFrames (n + 2)).position.get 0
      = (ticks openHaptics orient0 0 initial rampFrames (n + 1)).position.get 0 + 1 := by
  rw [rampFrames_position, rampFrames_position]
  push_cast
  ring

/-! ## The velocity filter on a ramp -/

theorem filterEnergy_step (x1 x2 x3 : ℚ) :
    filterEnergy (2.7488 * x1 - 2.5282 * x2 + 0.7776 * x3) x1 x2
      ≤ 19 / 20 * filterEnergy x1 x2 x3 := by
  have key : 19 / 20 * filterEnergy x1 x2 x3
      - filterEnergy (2.7488 * x1 - 2.5282 * x2 + 0.7776 * x3) x1 x2
      = (22094591/1562500) * (x1 + (-7074924/22094591) * x2 + (2435657/22094591) * x3)^2
        + (93387788657/7070269120) * (x2 + (-8942248400/93387788657) * x3)^2
        + (3887390601039/373551154628) * (x3)^2 := by
    unfold filterEnergy
    norm_num
    ring
  have : 0 ≤ 19 / 20 * filterEnergy x1 x2 x3
      - filterEnergy (2.7488 * x1 - 2.5282 * x2 + 0.7776 * x3) x1 x2 := by
    rw [key]; positivity
  linarith

theorem sq_le_filterEnergy (x1 x2 x3 : ℚ) : x1 ^ 2 ≤ filterEnergy x1 x2 x3 := by
  have key : filterEnergy x1 x2 x3 - x1 ^ 2
      = (717986) * (x3 + (-800315/358993) * x2 + (896383/717986) * x1)^2
        + (2168841897/358993) * (x2 + (-870396695/722947299) * x1)^2
        + (79420559589/481964866) * (x1)^2 := by
    unfold filterEnergy
    ring
  have : 0 ≤ filterEnergy x1 x2 x3 - x1 ^ 2 := by
    rw [key]; positivity
  linarith

theorem steadyRamp_step (d : HDDefines)
    (orient : (Fin 4 → Fin 4 → ℚ) → hduQuaternion) (style : Nat)
    (s : OmniState) (f : HDFrame) (i : Fin 3) (D : ℚ) (hs : SteadyRamp i D s)
    (hp : (omni_state_callback d orient style s f).state.position.get i
      = s.position.get i + D) :
    SteadyRamp i D (omni_state_callback d orient style s f).state
      ∧ rampEnergy i D (omni_state_callback d orient style s f).state
          ≤ 19 / 20 * rampEnergy i D s := by
  obtain ⟨hv, h2, h1, i3, i2, i1, o3, o2, o1⟩ := omni_state_callback_axis d orient style s f i
  obtain ⟨s1, s2, s3, s4, s5, _⟩ := hs
  have hraw : (3 * (omni_state_callback d orient style s f).state.position.get i
      - 4 * s.pos_hist1.get i + s.pos_hist2.get i) / 0.002 = 1000 * D := by
    rw [hp, s1, s2]; norm_num; ring
  refine ⟨⟨h1, ?_, ?_, ?_, ?_, o1⟩, ?_⟩
  · rw [h2, s1, hp]; ring
  · rw [i1, hraw]
  · rw [i2, s3]
  · rw [i3, s4]
  · have hx : (omni_state_callback d orient style s f).state.out_vel1.get i - 976 * D
        = 2.7488 * (s.out_vel1.get i - 976 * D) - 2.5282 * (s.out_vel2.get i - 976 * D)
          + 0.7776 * (s.out_vel3.get i - 976 * D) := by
      rw [o1, hv, hraw, s3, s4, s5]; norm_num; ring
    unfold rampEnergy
    rw [hx, o2, o3]
    exact filterEnergy_step _ _ _

section Ramp

variable (d : HDDefines) (orient : (Fin 4 → Fin 4 → ℚ) → hduQuaternion) (style : Nat)
variable (s : OmniState) (fs : ℕ → HDFrame) (i : Fin 3) (D : ℚ)

/-- After five runs on a ramp the taps are those of the steady ramp. -/
theorem steadyRamp_five
    (H : ∀ n, (ticks d orient style s fs (n + 2)).position.get i
      = (ticks d orient style s fs (n + 1)).position.get i + D) :
    SteadyRamp i D (ticks d orient style s fs 5) := by
  have A := fun n => omni_state_callback_axis d orient style (ticks d orient style s fs n) (fs n) i
  simp only [← ticks_succ] at A
  obtain ⟨-, -, a1h1, -, -, -, -, -, -⟩ := A 0
  obtain ⟨-, a2h2, a2h1, -, -, -, -, -, -⟩ := A 1
  obtain ⟨-, a3h2, a3h1, -, -, a3i1, -, -, -⟩ := A 2
  obtain ⟨-, a4h2, a4h1, -, a4i2, a4i1, -, -, -⟩ := A 3
  obtain ⟨-, a5h2, a5h1, a5i3, a5i2, a5i1, -, -, a5o1⟩ := A 4
  have p2 := H 0
  have p3 := H 1
  have p4 := H 2
  have p5 := H 3
  simp only [zero_add, Nat.reduceAdd] at a5h2 a5h1 a5i3 a5i2 a5i1 a5o1 p2 p3 p4 p5
  have r3 : (ticks d orient style s fs 3).inp_vel1.get i = 1000 * D := by
    rw [a3i1, a2h1, a2h2, a1h1, p3, p2]; norm_num; ring
  have r4 : (ticks d orient style s fs 4).inp_vel1.get i = 1000 * D := by
    rw [a4i1, a3h1, a3h2, a2h1, p4, p3]; norm_num; ring
  have r5 : (ticks d orient style s fs 5).inp_vel1.get i = 1000 * D := by
    rw [a5i1, a4h1, a4h2, a3h1, p5, p4]; norm_num; ring
  refine ⟨a5h1, ?_, r5, ?_, ?_, a5o1⟩
  · rw [a5h2, a4h1, p5]; ring
  · rw [a5i2, r4]
  · rw [a5i3, a4i2, r3]

theorem steadyRamp_after
    (H : ∀ n, (ticks d orient style s fs (n + 2)).position.get i
      = (ticks d orient style s fs (n + 1)).position.get i + D) (k : ℕ) :
    SteadyRamp i D (ticks d orient style s fs (5 + k))
      ∧ rampEnergy i D (ticks d orient style s fs (5 + k))
          ≤ (19 / 20) ^ k * rampEnergy i D (ticks d orient style s fs 5) := by
  induction k with
  | zero => exact ⟨steadyRamp_five d orient style s fs i D H, by simp⟩
  | succ k ih =>
    have hp := H (4 + k)
    have e1 : 4 + k + 2 = 5 + k + 1 := by ring
    have e2 : 4 + k + 1 = 5 + k := by ring
    rw [e1, e2, ticks_succ] at hp
    have st := steadyRamp_step d orient style (ticks d orient style s fs (5 + k))
      (fs (5 + k)) i D ih.1 hp
    rw [← ticks_succ] at st
    refine ⟨st.1, ?_⟩
    calc rampEnergy i D (ticks d orient style s fs (5 + k + 1))
        ≤ 19 / 20 * rampEnergy i D (ticks d orient style s fs (5 + k)) := st.2
      _ ≤ 19 / 20 * ((19 / 20) ^ k * rampEnergy i D (ticks d orient style s fs 5)) := by
          have := ih.2
          linarith
      _ = (19 / 20) ^ (k + 1) * rampEnergy i D (ticks d orient style s fs 5) := by ring

/-- On a ramp of slope `D` per run the velocity estimate tends to `976 * D`,
whatever the state the runs start from. -/
theorem ramp_velocity_tends
    (H : ∀ n, (ticks d orient style s fs (n + 2)).position.get i
      = (ticks d orient style s fs (n + 1)).position.get i + D)
    (ε : ℚ) (hε : 0 < ε) :
    ∃ N, ∀ n, N ≤ n → |(ticks d orient style s fs n).velocity.get i - 976 * D| < ε := by
  set E := rampEnergy i D (ticks d orient style s fs 5) with hE
  have hE0 : 0 ≤ E := by
    have := sq_le_filterEnergy ((ticks d orient style s fs 5).out_vel1.get i - 976 * D)
      ((ticks d orient style s fs 5).out_vel2.get i - 976 * D)
      ((ticks d orient style s fs 5).out_vel3.get i - 976 * D)
    have h2 := sq_nonneg ((ticks d orient style s fs 5).out_vel1.get i - 976 * D)
    rw [hE]; unfold rampEnergy; linarith
  have hpos : 0 < ε ^ 2 / (E + 1) := by positivity
  obtain ⟨K, hK⟩ := exists_pow_lt_of_lt_one hpos (show (19 / 20 : ℚ) < 1 by norm_num)
  refine ⟨5 + K, fun n hn => ?_⟩
  obtain ⟨k, rfl⟩ : ∃ k, n = 5 + k := ⟨n - 5, by omega⟩
  have hk : K ≤ k := by omega
  obtain ⟨st, en⟩ := steadyRamp_after d orient style s fs i D H k
  have hv : (ticks d orient style s fs (5 + k)).velocity.get i
      = (ticks d orient style s fs (5 + k)).out_vel1.get i := st.2.2.2.2.2.symm
  have hsq : ((ticks d orient style s fs (5 + k)).out_vel1.get i - 976 * D) ^ 2
      ≤ rampEnergy i D (ticks d orient style s fs (5 + k)) := sq_le_filterEnergy _ _ _
  have hpow : ((19 : ℚ) / 20) ^ k ≤ (19 / 20) ^ K :=
    pow_le_pow_of_le_one (by norm_num) (by norm_num) hk
  have hb : (19 / 20 : ℚ) ^ k * E < ε ^ 2 := by
    have h1 : (19 / 20 : ℚ) ^ k * E ≤ (19 / 20) ^ K * E :=
      mul_le_mul_of_nonneg_right hpow hE0
    have h2 : (19 / 20 : ℚ) ^ K * (E + 1) < ε ^ 2 := by
      exact (lt_div_iff₀ (by positivity : (0 : ℚ) < E + 1)).mp hK
    have h3 : (0 : ℚ) < (19 / 20) ^ K := by positivity
    nlinarith
  have hlt : ((ticks d orient style s fs (5 + k)).velocity.get i - 976 * D) ^ 2 < ε ^ 2 := by
    rw [hv]
    linarith
  exact abs_lt_of_sq_lt_sq hlt hε.le

end Ramp

/-! ## The claims -/

/-- C1: one run of `omni_state_callback` computes, on every axis `i`, the raw
difference `(3*position - 4*pos_hist1 + pos_hist2) / 0.002` and the filtered velocity
`(0.2196*(raw + inp_vel3) + 0.6588*(inp_vel1 + inp_vel2)) / 1000
 - (-2.7488*out_vel1 + 2.5282*out_vel2 - 0.7776*out_vel3)` from the histories as they
were before the run, and leaves the histories shifted by one place. -/
theorem omni_state_callback_velocity_filter (d : HDDefines)
    (orient : (Fin 4 → Fin 4 → ℚ) → hduQuaternion) (style : Nat)
    (s : OmniState) (f : HDFrame) (i : Fin 3) :
    let s' := (omni_state_callback d orient style s f).state
    let raw := (3 * s'.position.get i - 4 * s.pos_hist1.get i + s.pos_hist2.get i) / 0.002
    s'.velocity.get i =
        (0.2196 * (raw + s.inp_vel3.get i) + 0.6588 * (s.inp_vel1.get i + s.inp_vel2.get i))
            / 1000
          - (-2.7488 * s.out_vel1.get i + 2.5282 * s.out_vel2.get i
              - 0.7776 * s.out_vel3.get i)
      ∧ s'.pos_hist2 = s.pos_hist1 ∧ s'.pos_hist1 = s'.position
      ∧ s'.inp_vel3 = s.inp_vel2 ∧ s'.inp_vel2 = s.inp_vel1 ∧ s'.inp_vel1.get i = raw
      ∧ s'.out_vel3 = s.out_vel2 ∧ s'.out_vel2 = s.out_vel1 ∧ s'.out_vel1 = s'.velocity := by
  intro s' raw
  have hs : s' = (omni_state_callback d orient style s f).state := rfl
  rw [omni_state_callback_state] at hs
  simp only [raw, hs]
  split_ifs <;>
    simp [omni_state_callback.core, omni_state_callback.get_buttons,
      omni_state_callback.set_forces, omni_state_callback.velocity_estimation,
      omni_state_callback.pose, omni_state_callback.set_thetas, apply_ite,
      hduVector3Dd.get_add, hduVector3Dd.get_sub, hduVector3Dd.get_smul,
      hduVector3Dd.get_mul_scalar, hduVector3Dd.get_div] <;>
    ring_nf <;> simp

/-- C2: in a run of `omni_state_callback` with `lock == true` the force stored is
`0.04 * units_ratio * (lock_pos - position) - 0.001 * velocity` on every axis, with the
position and velocity of that same run; with `lock_pos = (10,0,0)`, position and
velocity zero and `units_ratio = 1` it is `(0.4, 0, 0)`. -/
theorem omni_state_callback_lock_force (d : HDDefines)
    (orient : (Fin 4 → Fin 4 → ℚ) → hduQuaternion) (style : Nat)
    (s : OmniState) (f : HDFrame) (hlock : s.lock = true) :
    (∀ i : Fin 3, (omni_state_callback d orient style s f).state.force.get i =
        0.04 * s.units_ratio *
            (s.lock_pos.get i - (omni_state_callback d orient style s f).state.position.get i)
          - 0.001 * (omni_state_callback d orient style s f).state.velocity.get i)
      ∧ (s.lock_pos = ⟨10, 0, 0⟩ →
          (omni_state_callback d orient style s f).state.position = ⟨0, 0, 0⟩ →
          (omni_state_callback d orient style s f).state.velocity = ⟨0, 0, 0⟩ →
          s.units_ratio = 1 →
          (omni_state_callback d orient style s f).state.force = ⟨0.4, 0, 0⟩) := by
  have hF := omni_state_callback_force d orient style s f
  rw [if_pos hlock] at hF
  refine ⟨fun i => ?_, fun h1 h2 h3 h4 => ?_⟩
  · rw [hF]
    simp [hduVector3Dd.get_sub, hduVector3Dd.get_smul]
  · rw [hF, h1, h2, h3, h4]
    apply hduVector3Dd.ext_get
    intro i
    simp only [hduVector3Dd.get_sub, hduVector3Dd.get_smul]
    fin_cases i <;> norm_num [hduVector3Dd.get]

/-- C2, instance: from the initial state locked on the anchor `(10, 0, 0)`, a run on a
frame at the origin stores the force `(0.4, 0, 0)`. -/
theorem omni_state_callback_lock_force_witness :
    (omni_state_callback openHaptics orient0 0 lockedAtTen (frameAt 0 0 0 0)).state.force
      = ⟨0.4, 0, 0⟩ :=
  (omni_state_callback_lock_force openHaptics orient0 0 lockedAtTen (frameAt 0 0 0 0) rfl).2
    rfl
    (by
      rw [omni_state_callback_position]
      apply hduVector3Dd.ext_get
      intro i
      simp only [hduVector3Dd.get_div]
      fin_cases i <;> simp [hduVector3Dd.get, frameAt])
    (by
      rw [omni_state_callback_velocity]
      apply hduVector3Dd.ext_get
      intro i
      simp only [omni_state_callback.velocity_estimation, omni_state_callback.pose,
        hduVector3Dd.get_add, hduVector3Dd.get_sub, hduVector3Dd.get_smul,
        hduVector3Dd.get_mul_scalar, hduVector3Dd.get_div]
      fin_cases i <;>
        simp [hduVector3Dd.get, frameAt, lockedAtTen, initial, PhantomROS.init,
          PhantomROS.init.reset, ros_param])
    initial_units_ratio

/-- C3: when `units_ratio` is 1, 10, 100 or 1000, the position stored by
`omni_state_callback` for a transform with translation `(tx, ty, tz)` is
`(tx, -tz, ty)` divided by `units_ratio`; for `(1,2,3)` and ratio 1 it is `(1,-3,2)`. -/
theorem omni_state_callback_position_remap (d : HDDefines)
    (orient : (Fin 4 → Fin 4 → ℚ) → hduQuaternion) (style : Nat)
    (s : OmniState) (f : HDFrame)
    (_hu : s.units_ratio = 1 ∨ s.units_ratio = 10 ∨ s.units_ratio = 100
      ∨ s.units_ratio = 1000) :
    (omni_state_callback d orient style s f).state.position =
        ⟨f.transform 3 0 / s.units_ratio, -f.transform 3 2 / s.units_ratio,
          f.transform 3 1 / s.units_ratio⟩
      ∧ (f.transform 3 0 = 1 → f.transform 3 1 = 2 → f.transform 3 2 = 3 →
          s.units_ratio = 1 →
          (omni_state_callback d orient style s f).state.position = ⟨1, -3, 2⟩) := by
  rw [omni_state_callback_position]
  refine ⟨rfl, fun h0 h1 h2 hu => ?_⟩
  rw [h0, h1, h2, hu]
  apply hduVector3Dd.ext_get
  intro i
  simp only [hduVector3Dd.get_div]
  fin_cases i <;> simp [hduVector3Dd.get]

/-- C3, instance: from the initial state (units `mm`), the frame with translation
`(1, 2, 3)` gives the position `(1, -3, 2)`. -/
theorem omni_state_callback_position_remap_witness :
    (omni_state_callback openHaptics orient0 0 initial (frameAt 1 2 3 0)).state.position
      = ⟨1, -3, 2⟩ :=
  (omni_state_callback_position_remap openHaptics orient0 0 initial (frameAt 1 2 3 0)
    (Or.inl initial_units_ratio)).2
    (by simp [frameAt]) (by simp [frameAt]) (by simp [frameAt]) initial_units_ratio

/-- C4, as stated, fails: after the message `pushX` is handled in the initial state
(velocity zero, lock off) and one run of the callback moves the stylus to `x = 1`, the
velocity estimate of that run is `0.3294` on the x axis, yet the stored force is still
`(1, 0, 0)`, not `1 - 0.001 * 0.3294`. -/
theorem omni_state_callback_unlocked_force_counterexample :
    (omni_state_callback openHaptics orient0 0
        (PhantomROS.force_callback initial pushX) (frameAt 1 0 0 0)).state.lock = false
      ∧ (omni_state_callback openHaptics orient0 0
        (PhantomROS.force_callback initial pushX) (frameAt 1 0 0 0)).state.velocity.get 0
          = 0.3294
      ∧ (omni_state_callback openHaptics orient0 0
        (PhantomROS.force_callback initial pushX) (frameAt 1 0 0 0)).state.force.get 0 = 1
      ∧ (omni_state_callback openHaptics orient0 0
        (PhantomROS.force_callback initial pushX) (frameAt 1 0 0 0)).state.force.get 0
          ≠ pushX.force.x - 0.001 *
            (omni_state_callback openHaptics orient0 0
              (PhantomROS.force_callback initial pushX)
              (frameAt 1 0 0 0)).state.velocity.get 0 := by
  have hl : (PhantomROS.force_callback initial pushX).lock = false := by
    simp [PhantomROS.force_callback, initial_lock]
  have hv : (omni_state_callback openHaptics orient0 0
        (PhantomROS.force_callback initial pushX) (frameAt 1 0 0 0)).state.velocity.get 0
          = 0.3294 := by
    rw [omni_state_callback_velocity]
    simp only [omni_state_callback.velocity_estimation, omni_state_callback.pose,
      hduVector3Dd.get_add, hduVector3Dd.get_sub, hduVector3Dd.get_smul,
      hduVector3Dd.get_mul_scalar, hduVector3Dd.get_div]
    simp [hduVector3Dd.get, frameAt, PhantomROS.force_callback, initial, PhantomROS.init,
      PhantomROS.init.reset, ros_param]
    norm_num
  have hf : (omni_state_callback openHaptics orient0 0
        (PhantomROS.force_callback initial pushX) (frameAt 1 0 0 0)).state.force.get 0 = 1 := by
    rw [omni_state_callback_force, hl]
    simp [hduVector3Dd.get, hduVector3Dd.set, PhantomROS.force_callback, pushX, initial,
      PhantomROS.init, PhantomROS.init.reset, ros_param]
  refine ⟨?_, hv, hf, ?_⟩
  · rw [omni_state_callback_lock, hl]
  · rw [hf, hv]
    norm_num [pushX]

/-- C4, amended: a run of `omni_state_callback` with `lock == false` does not write
`force`: the force stored after the run is the force stored before it, and it is this
force that is sent to the device as `(force.x, force.z, -force.y)`; the velocity
estimate of the run does not enter it. The stored force is the value of the last write,
which runs of `publish_omni_state` and callback runs with `lock == false` in between
(the events `es`) leave untouched: after a `force_callback` message it is the commanded
force minus `0.001` times the velocity held in the state when the message was handled;
after a callback run with `lock == true` (lock toggled off since) it is the spring force
`0.04 * units_ratio * (lock_pos - position) - 0.001 * velocity` of that locked run. -/
theorem omni_state_callback_unlocked_force (d : HDDefines)
    (orient : (Fin 4 → Fin 4 → ℚ) → hduQuaternion) (style : Nat)
    (p : PhantomROS) (es : List Event) (f : HDFrame)
    (hq : quiet d orient style p es = true)
    (hlock : (run d orient style p es).state.lock = false) :
    let before := (run d orient style p es).state
    let r := omni_state_callback d orient style before f
    r.state.force = before.force
      ∧ HDCall.hdSetForce ⟨r.state.force.get 0, r.state.force.get 2, -r.state.force.get 1⟩
          ∈ r.calls
      ∧ r.state.force = p.state.force
      ∧ (∀ (s0 : OmniState) (m : OmniFeedback), p.state = PhantomROS.force_callback s0 m →
          r.state.force = ⟨m.force.x - 0.001 * s0.velocity.get 0,
            m.force.y - 0.001 * s0.velocity.get 1, m.force.z - 0.001 * s0.velocity.get 2⟩)
      ∧ (∀ (s0 : OmniState) (f0 : HDFrame), s0.lock = true →
          p.state = (omni_state_callback d orient style s0 f0).state →
          ∀ i : Fin 3, r.state.force.get i =
            0.04 * s0.units_ratio *
                (s0.lock_pos.get i
                  - (omni_state_callback d orient style s0 f0).state.position.get i)
              - 0.001 * (omni_state_callback d orient style s0 f0).state.velocity.get i) := by
  intro before r
  have hr : r.state.force = before.force := by
    simp only [r]
    rw [omni_state_callback_force, hlock]
    simp
  have hb : before.force = p.state.force := run_quiet_force d orient style p es hq
  refine ⟨hr, ?_, hr.trans hb, fun s0 m hp => ?_, fun s0 f0 hl hp i => ?_⟩
  · simp only [r]
    rw [omni_state_callback_calls]
    simp
  · rw [hr, hb, hp]
    simp [PhantomROS.force_callback, hduVector3Dd.set]
  · rw [hr, hb, hp, omni_state_callback_force, if_pos hl]
    simp [hduVector3Dd.get_sub, hduVector3Dd.get_smul]

/-- C4, amended, instances. First: lock mode is on with the anchor at `(10, 0, 0)`, a
callback run with the white button down writes the spring force, `publish_omni_state`
toggles lock off, and the next callback run (lock off) still stores that spring force.
Second: the message `pushX` is handled in the initial state, a callback run and a
publisher run follow, and the next callback run stores the force of the message. -/
theorem omni_state_callback_unlocked_force_witness :
    (∀ i : Fin 3,
      (omni_state_callback openHaptics orient0 0
          (run openHaptics orient0 0 lockedWhiteDown [Event.publish 0]).state
          (frameAt 1 0 0 2)).state.force.get i
        = 0.04 * lockedAtTen.units_ratio *
            (lockedAtTen.lock_pos.get i
              - (omni_state_callback openHaptics orient0 0 lockedAtTen
                  (frameAt 0 0 0 2)).state.position.get i)
          - 0.001 * (omni_state_callback openHaptics orient0 0 lockedAtTen
              (frameAt 0 0 0 2)).state.velocity.get i)
      ∧ (omni_state_callback openHaptics orient0 0
          (run openHaptics orient0 0 pushed
            [Event.tick (frameAt 1 0 0 0), Event.publish 0]).state
          (frameAt 2 0 0 0)).state.force
        = ⟨pushX.force.x - 0.001 * initial.velocity.get 0,
            pushX.force.y - 0.001 * initial.velocity.get 1,
            pushX.force.z - 0.001 * initial.velocity.get 2⟩ :=
  ⟨(omni_state_callback_unlocked_force openHaptics orient0 0 lockedWhiteDown
      [Event.publish 0] (frameAt 1 0 0 2) rfl lockedWhiteDown_unlocks).2.2.2.2
      lockedAtTen (frameAt 0 0 0 2) rfl rfl,
   (omni_state_callback_unlocked_force openHaptics orient0 0 pushed
      [Event.tick (frameAt 1 0 0 0), Event.publish 0] (frameAt 2 0 0 0)
      pushed_quiet pushed_stays_unlocked).2.2.2.1 initial pushX rfl⟩

/-- C5, the code at the failing input: with the grey button held (no transition on
channel 0: `buttons_prev[0] == 1`, `buttons[0] == 1`), pressing the white button makes
the button step of `publish_omni_state` toggle `close_gripper` as well. -/
theorem publish_omni_state_toggles_gripper_without_edge :
    greyHeldWhiteDown.state.buttons_prev 0 = 1 ∧ greyHeldWhiteDown.state.buttons 0 = 1
      ∧ greyHeldWhiteDown.state.buttons_prev 1 = 0 ∧ greyHeldWhiteDown.state.buttons 1 = 1
      ∧ greyHeldWhiteDown.state.close_gripper = true
      ∧ (PhantomROS.publish_omni_state greyHeldWhiteDown 1).1.state.close_gripper = false := by
  simp [greyHeldWhiteDown, greyDown, initialROS, PhantomROS.publish_omni_state,
    PhantomROS.publish_omni_state.buttons, omni_state_callback_state,
    omni_state_callback.core, omni_state_callback.get_buttons,
    omni_state_callback.set_forces, omni_state_callback.velocity_estimation,
    omni_state_callback.pose, omni_state_callback.set_thetas, frameAt, openHaptics,
    PhantomROS.init, PhantomROS.init.reset, ros_param, OmniState.blank]

/-- C6: two runs of `publish_omni_state` in a row (the button values are the same in
both) publish at most one button event, and only in the first: after the first run
`buttons_prev` equals `buttons`, the second run publishes no event and leaves the state
as it is. The first run publishes an event exactly when a channel differs from
`buttons_prev`. -/
theorem publish_omni_state_twice (p : PhantomROS) (t1 t2 : Nat) :
    let r1 := PhantomROS.publish_omni_state p t1
    let r2 := PhantomROS.publish_omni_state r1.1 t2
    r1.1.state.buttons = p.state.buttons
      ∧ r1.1.state.buttons_prev = p.state.buttons
      ∧ r2.2.button_event = none
      ∧ r2.1.state = r1.1.state
      ∧ r2.1.state.close_gripper = r1.1.state.close_gripper
      ∧ r2.1.state.lock = r1.1.state.lock
      ∧ r2.1.state.buttons_prev = r1.1.state.buttons_prev
      ∧ (r1.2.button_event.isSome = true ↔
          (p.state.buttons 0 ≠ p.state.buttons_prev 0
            ∨ p.state.buttons 1 ≠ p.state.buttons_prev 1)) := by
  intro r1 r2
  have hb : r1.1.state.buttons = p.state.buttons := by
    simp only [r1, PhantomROS.publish_omni_state, PhantomROS.publish_omni_state.buttons]
    split_ifs <;> rfl
  have hp : r1.1.state.buttons_prev = p.state.buttons := by
    simp only [r1, PhantomROS.publish_omni_state, PhantomROS.publish_omni_state.buttons]
    by_cases h : p.state.buttons 0 ≠ p.state.buttons_prev 0
        ∨ p.state.buttons 1 ≠ p.state.buttons_prev 1
    · rw [if_pos h]
      split_ifs <;> (funext i; fin_cases i <;> simp)
    · rw [if_neg h]
      push_neg at h
      funext i
      fin_cases i <;> simp [h.1, h.2]
  have hno : ¬ (r1.1.state.buttons 0 ≠ r1.1.state.buttons_prev 0
      ∨ r1.1.state.buttons 1 ≠ r1.1.state.buttons_prev 1) := by
    rw [hp, hb]; simp
  have h2 : PhantomROS.publish_omni_state.buttons r1.1.state = (r1.1.state, none) := by
    unfold PhantomROS.publish_omni_state.buttons
    rw [if_neg hno]
  have hs : r2.1.state = r1.1.state := by
    simp only [r2, PhantomROS.publish_omni_state, h2]
  refine ⟨hb, hp, ?_, hs, by rw [hs], by rw [hs], by rw [hs], ?_⟩
  · simp only [r2, PhantomROS.publish_omni_state, h2]
  · simp only [r1, PhantomROS.publish_omni_state, PhantomROS.publish_omni_state.buttons]
    split_ifs with h <;> simp [h]

/-- C7, as stated, fails: in a run whose calibration check reports `NEEDS_UPDATE`
(not `OK`), from the locked state `lockedAtTen`, position and force are both rewritten
and a force is sent to the device. -/
theorem omni_state_callback_uncalibrated_counterexample :
    frameNeedsUpdate.calibration ≠ openHaptics.HD_CALIBRATION_OK
      ∧ (omni_state_callback openHaptics orient0 0 lockedAtTen frameNeedsUpdate).state.position
          = ⟨1, -3, 2⟩
      ∧ (omni_state_callback openHaptics orient0 0 lockedAtTen frameNeedsUpdate).state.position
          ≠ lockedAtTen.position
      ∧ (omni_state_callback openHaptics orient0 0 lockedAtTen frameNeedsUpdate).state.force
          ≠ lockedAtTen.force
      ∧ (∃ v, HDCall.hdSetForce v ∈
          (omni_state_callback openHaptics orient0 0 lockedAtTen frameNeedsUpdate).calls) := by
  have hp : (omni_state_callback openHaptics orient0 0 lockedAtTen
      frameNeedsUpdate).state.position = ⟨1, -3, 2⟩ := by
    rw [omni_state_callback_position]
    apply hduVector3Dd.ext_get
    intro i
    simp only [hduVector3Dd.get_div]
    have hu : lockedAtTen.units_ratio = 1 := initial_units_ratio
    rw [hu]
    fin_cases i <;> simp [hduVector3Dd.get, frameNeedsUpdate, frameAt]
  have hl : lockedAtTen.lock = true := rfl
  have hv : (omni_state_callback openHaptics orient0 0 lockedAtTen
      frameNeedsUpdate).state.velocity.get 1 = -0.9882 := by
    rw [omni_state_callback_velocity]
    simp only [omni_state_callback.velocity_estimation, omni_state_callback.pose,
      hduVector3Dd.get_add, hduVector3Dd.get_sub, hduVector3Dd.get_smul,
      hduVector3Dd.get_mul_scalar, hduVector3Dd.get_div]
    simp [hduVector3Dd.get, frameNeedsUpdate, frameAt, lockedAtTen, initial, PhantomROS.init,
      PhantomROS.init.reset, ros_param]
    norm_num
  have hf : (omni_state_callback openHaptics orient0 0 lockedAtTen
      frameNeedsUpdate).state.force.get 1 = 0.1209882 := by
    rw [omni_state_callback_force, if_pos hl]
    simp only [hduVector3Dd.get_sub, hduVector3Dd.get_smul]
    rw [hv, hp]
    have hu : lockedAtTen.units_ratio = 1 := initial_units_ratio
    rw [hu]
    simp [hduVector3Dd.get, lockedAtTen]
    norm_num
  refine ⟨by decide, hp, ?_, ?_, ?_⟩
  · rw [hp]
    simp [lockedAtTen, initial, PhantomROS.init, PhantomROS.init.reset, ros_param,
      OmniState.blank]
  · intro h
    have h1 := congrArg (fun v => hduVector3Dd.get v 1) h
    simp only [hf] at h1
    simp [hduVector3Dd.get, lockedAtTen, initial, PhantomROS.init, PhantomROS.init.reset,
      ros_param, OmniState.blank] at h1
    norm_num at h1
  · refine ⟨⟨(omni_state_callback openHaptics orient0 0 lockedAtTen
        frameNeedsUpdate).state.force.get 0,
      (omni_state_callback openHaptics orient0 0 lockedAtTen
        frameNeedsUpdate).state.force.get 2,
      -(omni_state_callback openHaptics orient0 0 lockedAtTen
        frameNeedsUpdate).state.force.get 1⟩, ?_⟩
    rw [omni_state_callback_calls]
    simp

/-- C7, amended: the callback does not gate on calibration. When the check reports
`NEEDS_UPDATE` the run first issues `hdUpdateCalibration(calibrationStyle)`; whatever
the check reports, the run then computes and stores position, velocity, rot and force
and sends the force to the device exactly as a run with status `OK` does. -/
theorem omni_state_callback_ignores_calibration (d : HDDefines)
    (orient : (Fin 4 → Fin 4 → ℚ) → hduQuaternion) (style : Nat)
    (s : OmniState) (f : HDFrame)
    (hne : d.HD_CALIBRATION_OK ≠ d.HD_CALIBRATION_NEEDS_UPDATE) :
    let r := omni_state_callback d orient style s f
    let rok := omni_state_callback d orient style s
      { f with calibration := d.HD_CALIBRATION_OK }
    r.state = rok.state ∧ r.code = rok.code
      ∧ r.calls =
          (if f.calibration = d.HD_CALIBRATION_NEEDS_UPDATE then
            [HDCall.hdUpdateCalibration style] else []) ++ rok.calls
      ∧ HDCall.hdSetForce ⟨r.state.force.get 0, r.state.force.get 2, -r.state.force.get 1⟩
          ∈ r.calls := by
  intro r rok
  have hst : r.state = rok.state := by
    simp only [r, rok]
    rw [omni_state_callback_state, omni_state_callback_state]
    rfl
  refine ⟨hst, ?_, ?_, ?_⟩
  · simp only [r, rok, omni_state_callback]
    split_ifs <;> rfl
  · have h1 := omni_state_callback_calls d orient style s f
    have h2 := omni_state_callback_calls d orient style s
      { f with calibration := d.HD_CALIBRATION_OK }
    simp only [if_neg hne, List.nil_append] at h2
    have hst2 : (omni_state_callback d orient style s
        { f with calibration := d.HD_CALIBRATION_OK }).state
          = (omni_state_callback d orient style s f).state := hst.symm
    rw [hst2] at h2
    simp only [r, rok]
    rw [h1, h2, List.append_assoc]
  · simp only [r]
    rw [omni_state_callback_calls]
    simp

/-- C7, amended, instance: the run of the counterexample issues the calibration update
and then the calls of a calibrated run. -/
theorem omni_state_callback_ignores_calibration_witness :
    (omni_state_callback openHaptics orient0 0 lockedAtTen frameNeedsUpdate).calls =
      (if frameNeedsUpdate.calibration = openHaptics.HD_CALIBRATION_NEEDS_UPDATE then
          [HDCall.hdUpdateCalibration 0] else [])
        ++ (omni_state_callback openHaptics orient0 0 lockedAtTen
          { frameNeedsUpdate with calibration := openHaptics.HD_CALIBRATION_OK }).calls :=
  (omni_state_callback_ignores_calibration openHaptics orient0 0 lockedAtTen frameNeedsUpdate
    (by decide)).2.2.1

/-- C8, as stated, fails: for a device that supports encoder reset and inkwell (mask 6)
the style selected is inkwell, not encoder reset. -/
theorem HHD_Auto_Calibration_style_counterexample :
    6 &&& openHaptics.HD_CALIBRATION_ENCODER_RESET ≠ 0
      ∧ HHD_Auto_Calibration.style openHaptics 6 0 = openHaptics.HD_CALIBRATION_INKWELL
      ∧ HHD_Auto_Calibration.style openHaptics 6 0
          ≠ openHaptics.HD_CALIBRATION_ENCODER_RESET := by
  decide

/-- C8, amended: `HHD_Auto_Calibration` selects automatic whenever automatic is
supported; otherwise inkwell whenever inkwell is supported; otherwise encoder reset
when encoder reset is supported (and leaves `calibrationStyle` as it was when none is). -/
theorem HHD_Auto_Calibration_style_priority (d : HDDefines)
    (supported calibrationStyle : Nat) :
    (supported &&& d.HD_CALIBRATION_AUTO ≠ 0 →
        HHD_Auto_Calibration.style d supported calibrationStyle = d.HD_CALIBRATION_AUTO)
      ∧ (supported &&& d.HD_CALIBRATION_AUTO = 0 →
          supported &&& d.HD_CALIBRATION_INKWELL ≠ 0 →
          HHD_Auto_Calibration.style d supported calibrationStyle = d.HD_CALIBRATION_INKWELL)
      ∧ (supported &&& d.HD_CALIBRATION_AUTO = 0 →
          supported &&& d.HD_CALIBRATION_INKWELL = 0 →
          supported &&& d.HD_CALIBRATION_ENCODER_RESET ≠ 0 →
          HHD_Auto_Calibration.style d supported calibrationStyle
            = d.HD_CALIBRATION_ENCODER_RESET)
      ∧ (supported &&& d.HD_CALIBRATION_AUTO = 0 →
          supported &&& d.HD_CALIBRATION_INKWELL = 0 →
          supported &&& d.HD_CALIBRATION_ENCODER_RESET = 0 →
          HHD_Auto_Calibration.style d supported calibrationStyle = calibrationStyle) := by
  refine ⟨fun h => ?_, fun h1 h2 => ?_, fun h1 h2 h3 => ?_, fun h1 h2 h3 => ?_⟩ <;>
    simp_all [HHD_Auto_Calibration.style]

/-- C8, amended, instance: with all three styles supported (mask 7) the style selected
is automatic; with encoder reset and inkwell (mask 6) it is inkwell; with encoder reset
alone (mask 2) it is encoder reset. -/
theorem HHD_Auto_Calibration_style_priority_witness :
    HHD_Auto_Calibration.style openHaptics 7 0 = openHaptics.HD_CALIBRATION_AUTO
      ∧ HHD_Auto_Calibration.style openHaptics 6 0 = openHaptics.HD_CALIBRATION_INKWELL
      ∧ HHD_Auto_Calibration.style openHaptics 2 0
          = openHaptics.HD_CALIBRATION_ENCODER_RESET :=
  ⟨(HHD_Auto_Calibration_style_priority openHaptics 7 0).1 (by decide),
   (HHD_Auto_Calibration_style_priority openHaptics 6 0).2.1 (by decide) (by decide),
   (HHD_Auto_Calibration_style_priority openHaptics 2 0).2.2.1 (by decide) (by decide)
     (by decide)⟩

/-- C9: `PhantomROS::init` sets `units_ratio` to 1, 10, 100, 1000 for the units
`mm`, `cm`, `dm`, `m`; for any other string `u` it sets `units_ratio` to 1, logs the
warning and resets `units` to `mm`. So `units_ratio` is one of 1, 10, 100, 1000 after
`init`, whatever the parameter `p_units` holds. -/
theorem init_units_ratio (s : OmniState) (p_omni_name p_reference_frame : Option String)
    (u : String) (p_units : Option String) :
    (PhantomROS.init s p_omni_name p_reference_frame (some "mm")).1.state.units_ratio = 1
      ∧ (PhantomROS.init s p_omni_name p_reference_frame (some "cm")).1.state.units_ratio = 10
      ∧ (PhantomROS.init s p_omni_name p_reference_frame (some "dm")).1.state.units_ratio = 100
      ∧ (PhantomROS.init s p_omni_name p_reference_frame (some "m")).1.state.units_ratio = 1000
      ∧ (u ≠ "mm" → u ≠ "cm" → u ≠ "dm" → u ≠ "m" →
          (PhantomROS.init s p_omni_name p_reference_frame (some u)).1.state.units_ratio = 1
            ∧ RosLog.warn_unknown_units u
                ∈ (PhantomROS.init s p_omni_name p_reference_frame (some u)).2
            ∧ (PhantomROS.init s p_omni_name p_reference_frame (some u)).1.units = "mm")
      ∧ ((PhantomROS.init s p_omni_name p_reference_frame p_units).1.state.units_ratio = 1
          ∨ (PhantomROS.init s p_omni_name p_reference_frame p_units).1.state.units_ratio = 10
          ∨ (PhantomROS.init s p_omni_name p_reference_frame p_units).1.state.units_ratio = 100
          ∨ (PhantomROS.init s p_omni_name p_reference_frame p_units).1.state.units_ratio
              = 1000) := by
  refine ⟨?_, ?_, ?_, ?_, fun h1 h2 h3 h4 => ?_, ?_⟩
  · simp [PhantomROS.init, ros_param]
    norm_num
  · simp [PhantomROS.init, ros_param]
    norm_num
  · simp [PhantomROS.init, ros_param]
    norm_num
  · simp [PhantomROS.init, ros_param]
    norm_num
  · simp [PhantomROS.init, ros_param, h1, h2, h3, h4]
    norm_num
  · simp only [PhantomROS.init]
    split_ifs <;> norm_num

/-- C9, instance: the unknown unit `km` gives `units_ratio = 1`, the warning and the
units `mm`. -/
theorem init_units_ratio_witness :
    (PhantomROS.init OmniState.blank none none (some "km")).1.state.units_ratio = 1
      ∧ RosLog.warn_unknown_units "km"
          ∈ (PhantomROS.init OmniState.blank none none (some "km")).2
      ∧ (PhantomROS.init OmniState.blank none none (some "km")).1.units = "mm" :=
  (init_units_ratio OmniState.blank none none "km" none).2.2.2.2.1
    (by decide) (by decide) (by decide) (by decide)

/-- C10, as stated, fails: from the initial state, on the ramp `rampFrames` (the
position on axis 0 advances by `D = 1` per run) the velocity estimate on axis 0 does
not converge to `D / 0.002 = 500`. -/
theorem velocity_ramp_limit_counterexample :
    (∀ n, (ticks openHaptics orient0 0 initial rampFrames (n + 2)).position.get 0
        = (ticks openHaptics orient0 0 initial rampFrames (n + 1)).position.get 0 + 1)
      ∧ ¬ (∀ ε : ℚ, 0 < ε → ∃ N, ∀ n, N ≤ n →
          |(ticks openHaptics orient0 0 initial rampFrames n).velocity.get 0 - 1 / 0.002|
            < ε) := by
  refine ⟨rampFrames_ramp, fun h => ?_⟩
  obtain ⟨N1, h1⟩ := h 1 (by norm_num)
  obtain ⟨N2, h2⟩ := ramp_velocity_tends openHaptics orient0 0 initial rampFrames 0 1
    rampFrames_ramp 1 (by norm_num)
  have a := h1 (max N1 N2) (le_max_left _ _)
  have b := h2 (max N1 N2) (le_max_right _ _)
  rw [abs_lt] at a b
  norm_num at a b
  linarith [a.1, a.2, b.1, b.2]

/-- C10, amended: starting from the initialised state (all histories zero) and feeding
`omni_state_callback` a position sequence that advances by a constant increment `D`
per run on axis `i`, the velocity estimate on that axis converges to `976 * D`: the
differencer yields `2 * D / 0.002 = 1000 * D` on a ramp and the steady-state gain of the
filter recurrence is `0.0017568 / 0.0018 = 0.976`. -/
theorem velocity_ramp_limit (d : HDDefines)
    (orient : (Fin 4 → Fin 4 → ℚ) → hduQuaternion) (style : Nat)
    (mem : OmniState) (p_omni_name p_reference_frame p_units : Option String)
    (fs : ℕ → HDFrame) (i : Fin 3) (D : ℚ)
    (H : ∀ n,
      (ticks d orient style
          (PhantomROS.init mem p_omni_name p_reference_frame p_units).1.state fs
          (n + 2)).position.get i
        = (ticks d orient style
          (PhantomROS.init mem p_omni_name p_reference_frame p_units).1.state fs
          (n + 1)).position.get i + D) :
    ∀ ε : ℚ, 0 < ε → ∃ N, ∀ n, N ≤ n →
      |(ticks d orient style
          (PhantomROS.init mem p_omni_name p_reference_frame p_units).1.state fs
          n).velocity.get i - 976 * D| < ε :=
  fun ε hε => ramp_velocity_tends d orient style _ fs i D H ε hε

/-- C10, amended, instance: on the ramp `rampFrames` (`D = 1` on axis 0) the velocity
estimate is eventually within `1 / 1000` of `976`. -/
theorem velocity_ramp_limit_witness :
    ∃ N, ∀ n, N ≤ n →
      |(ticks openHaptics orient0 0
          (PhantomROS.init OmniState.blank none none none).1.state rampFrames
          n).velocity.get 0 - 976 * 1| < 1 / 1000 :=
  velocity_ramp_limit openHaptics orient0 0 OmniState.blank none none none rampFrames 0 1
    rampFrames_ramp (1 / 1000) (by norm_num)

end Omni
